import Mathlib

/-
Verification of the MCP Executor service (src/main.py): a FastAPI app with
three endpoints (POST /mcp-bundler, POST /executor, GET /health) persisting
bundles and routes in a relational store.

Shallow embedding conventions:
* The database (supabase tables `mcp`, `bundles`, `route`) is an explicit
  `Db` value threaded through each endpoint.  Row ids generated by inserts
  are modelled by a counter `nextId` in `Db`; an insert consumes one id.
* The external agent stack (MultiServerMCPClient.get_tools, the LangGraph
  react agent, PydanticOutputParser.parse) is modelled by its returned
  values, passed to the endpoint as parameters: `tools` is the list of tool
  names returned by get_tools, `agentText` is the agent's final message
  content, and the parse outcome is an `Option` that is `none` exactly when
  `parser.parse` raised (the source wraps the parse in a bare `except`).
* Python exceptions are the inductive `PyExc`; FastAPI's HTTPException is
  `PyExc.http status detail`.  Each endpoint body runs inside
  `try: ... except Exception as e: raise HTTPException(500, str(e))`, so an
  escaping exception of either kind is re-raised as status 500 with
  `str(e)` as detail; `str` of an HTTPException is modelled after
  starlette's `HTTPException.__str__`, `f"{status_code}: {detail}"`.
-/

namespace McpExecutor

/-- Row of the `mcp` table: a tool-server configuration (read-only here). -/
structure McpRecord where
  id : String
  name : String
  parameters : String
deriving Repr, DecidableEq

/-- Row of the `bundles` table. -/
structure BundleRow where
  id : String
  project_id : String
  description : String
  mcps : List String
  routes : List String
deriving Repr, DecidableEq

/-- Row of the `route` table. -/
structure RouteRow where
  id : String
  bundle_id : String
  task_description : String
  tool_sequence : List String
  notes : String
  execution_order : Nat
  mcp_tools : List String
deriving Repr, DecidableEq

/-- The relational store: the three tables plus the id-generation counter. -/
structure Db where
  mcp : List McpRecord
  bundles : List BundleRow
  route : List RouteRow
  nextId : Nat
deriving Repr, DecidableEq

/-- Request body of POST /mcp-bundler (pydantic `BundlerRequest`). -/
structure BundlerRequest where
  project_id : String
  mcp_ids : List String
  description : String
deriving Repr, DecidableEq

/-- Response body of POST /mcp-bundler (pydantic `BundlerResponse`). -/
structure BundlerResponse where
  bundle_id : String
  routes_created : Nat
deriving Repr, DecidableEq

/-- Request body of POST /executor (pydantic `ExecutorRequest`). -/
structure ExecutorRequest where
  bundle_id : String
  request : String
deriving Repr, DecidableEq

/-- Response body of POST /executor (pydantic `ExecutorResponse`).  The
`result` field is `Any` in the source but every return site fills it with a
string (`execution_result.execution_result` or the raw agent text). -/
structure ExecutorResponse where
  result : String
  route_used : String
  new_route_created : Bool
deriving Repr, DecidableEq

/-- Structured-output record `Task` produced by the planning parser. -/
structure Task where
  task_description : String
  tool_sequence : List String
  notes : String
deriving Repr, DecidableEq

/-- Structured-output record `TaskPlanning` (the bundler's parse target). -/
structure TaskPlanning where
  tasks : List Task
deriving Repr, DecidableEq

/-- Structured-output record `RouteExecution` (the executor's parse target). -/
structure RouteExecution where
  matched_route : Bool
  route_used : String
  execution_result : String
  new_route_created : Bool
deriving Repr, DecidableEq

/-- An HTTP error as surfaced by FastAPI: status code and `detail` body. -/
structure HttpError where
  status : Nat
  detail : String
deriving Repr, DecidableEq

/-- A Python exception as far as this program distinguishes them:
a fastapi `HTTPException` or any other exception carrying its message. -/
inductive PyExc where
  | http (status : Nat) (detail : String)
  | other (msg : String)
deriving Repr, DecidableEq

/-- Model of Python `str(e)`: for an `HTTPException`, starlette defines
`__str__` as `f"{status_code}: {detail}"`; other exceptions carry a message. -/
def strOfExc : PyExc → String
  | .http s d => toString s ++ ": " ++ d
  | .other m => m

/-- Id returned by the store for the `n`-th insert of the run. -/
def freshId (n : Nat) : String :=
  "id_" ++ toString n

/-- The `mcp_config` dict built by both endpoints from the `mcp` rows whose
`id` is in the given id list: maps each matching row's `name` to its
`parameters` (src/main.py lines 61-64 and 150-153). -/
def mcpConfigOf (db : Db) (ids : List String) : List (String × String) :=
  (db.mcp.filter (fun m => ids.contains m.id)).map (fun m => (m.name, m.parameters))

/-- The fallback task the bundler synthesizes when parsing the agent output
raises (src/main.py lines 95-101): the request description, the names of the
first three tools, and a fixed note. -/
def fallbackTask (req : BundlerRequest) (tools : List String) : Task :=
  { task_description := req.description
    tool_sequence := tools.take 3
    notes := "Auto-generated from description" }

/-- The task list the bundler ends up with (src/main.py lines 92-101): the
parsed `TaskPlanning.tasks` when the parse succeeds, the single fallback
task when it raises. -/
def plannedTasks (req : BundlerRequest) (tools : List String)
    (parsed : Option TaskPlanning) : List Task :=
  match parsed with
  | some tp => tp.tasks
  | none => [fallbackTask req tools]

/-- The route rows created by the bundler's insert loop (src/main.py lines
114-124): one row per task, `execution_order` is the loop index `i`
(starting at `i`), ids are drawn consecutively from the counter `n`. -/
def mkRoutes (bundleId : String) (mcpIds : List String) :
    List Task → Nat → Nat → List RouteRow
  | [], _, _ => []
  | t :: ts, i, n =>
      { id := freshId n
        bundle_id := bundleId
        task_description := t.task_description
        tool_sequence := t.tool_sequence
        notes := t.notes
        execution_order := i
        mcp_tools := mcpIds } :: mkRoutes bundleId mcpIds ts (i + 1) (n + 1)

/-- POST /mcp-bundler (src/main.py `create_bundle`, lines 56-132).

Steps mirrored from the source: build `mcp_config` from the matching `mcp`
rows (no check that any matched); obtain `tools` (external, given); invoke
the agent (external, its parse outcome is `parsed`); on parse failure fall
back to one synthesized task; insert the bundle row with `routes := []`;
insert one route row per task with `execution_order := i`; update every
`bundles` row whose id equals the new bundle id to carry the created route
ids; respond with the bundle id and the task count.  With the external
calls modelled by their values, no exception arises in the body, so the
blanket `except` (line 131) is never reached. -/
def create_bundle (db : Db) (req : BundlerRequest) (tools : List String)
    (parsed : Option TaskPlanning) : Except HttpError BundlerResponse × Db :=
  let _mcp_config := mcpConfigOf db req.mcp_ids
  let tasks := plannedTasks req tools parsed
  let bundle_id := freshId db.nextId
  let bundleRow : BundleRow :=
    { id := bundle_id
      project_id := req.project_id
      description := req.description
      mcps := req.mcp_ids
      routes := [] }
  let newRoutes := mkRoutes bundle_id req.mcp_ids tasks 0 (db.nextId + 1)
  let route_ids := newRoutes.map (fun r => r.id)
  (.ok { bundle_id := bundle_id, routes_created := tasks.length },
   { mcp := db.mcp
     bundles := (db.bundles ++ [bundleRow]).map
       (fun b => if b.id == bundle_id then { b with routes := route_ids } else b)
     route := db.route ++ newRoutes
     nextId := db.nextId + 1 + tasks.length })

/-- Stable insertion of a route into a list sorted by `execution_order`. -/
def insertRoute (r : RouteRow) : List RouteRow → List RouteRow
  | [] => [r]
  | x :: xs =>
      if r.execution_order ≤ x.execution_order then r :: x :: xs
      else x :: insertRoute r xs

/-- Stable ascending sort by `execution_order`, modelling the store's
`.order('execution_order')` on the selected route rows. -/
def sortByExecOrder : List RouteRow → List RouteRow
  | [] => []
  | x :: xs => insertRoute x (sortByExecOrder xs)

/-- The route rows the executor fetches for a bundle (src/main.py line 146):
the `route` rows with this `bundle_id`, ordered by `execution_order`. -/
def routesFor (db : Db) (bundleId : String) : List RouteRow :=
  sortByExecOrder (db.route.filter (fun r => r.bundle_id == bundleId))

/-- Body of POST /executor inside the `try` (src/main.py lines 138-206):
fetch the bundle, raising HTTPException(404, "Bundle not found") when no row
matches; fetch the ordered routes; on a successful parse answer with the
parsed execution result, the parsed route id when non-empty (else the first
route's id, else the sentinel "new_route"), and the parsed flag; on a parse
failure answer with the raw agent text, the first route's id (else the
sentinel "new_route_created"), and `routes.length == 0`. -/
def execute_request_body (db : Db) (req : ExecutorRequest) (agentText : String)
    (parsed : Option RouteExecution) : Except PyExc ExecutorResponse :=
  match db.bundles.filter (fun b => b.id == req.bundle_id) with
  | [] => .error (.http 404 "Bundle not found")
  | _bundle :: _ =>
    let routes := routesFor db req.bundle_id
    match parsed with
    | some er =>
        .ok { result := er.execution_result
              route_used :=
                if er.route_used == "" then
                  match routes with
                  | [] => "new_route"
                  | r :: _ => r.id
                else er.route_used
              new_route_created := er.new_route_created }
    | none =>
        .ok { result := agentText
              route_used :=
                match routes with
                | [] => "new_route_created"
                | r :: _ => r.id
              new_route_created := routes.length == 0 }

/-- POST /executor (src/main.py `execute_request`, lines 134-209): the body
above wrapped in `try: ... except Exception as e: raise HTTPException(500,
str(e))`.  fastapi's HTTPException is a subclass of Exception, so the inner
404 is also caught and re-raised with status 500.  The endpoint performs no
table writes, so the store component of the result is the input store. -/
def execute_request (db : Db) (req : ExecutorRequest) (agentText : String)
    (parsed : Option RouteExecution) : Except HttpError ExecutorResponse × Db :=
  match execute_request_body db req agentText parsed with
  | .ok r => (.ok r, db)
  | .error e => (.error { status := 500, detail := strOfExc e }, db)

/-- GET /health (src/main.py `health_check`, lines 211-213): the handler
takes no inputs — in particular neither the store nor any tool-server
state — and returns the literal payload, modelled as the exact list of
key-value pairs of the returned JSON object. -/
def health_check : List (String × String) :=
  [("status", "healthy")]

/-! Concrete sample data used to instantiate the theorems below. -/

/-- An empty store. -/
def dbNoBundle : Db := { mcp := [], bundles := [], route := [], nextId := 0 }

/-- A sample bundler request naming the tool server "m1". -/
def reqSample : BundlerRequest := { project_id := "p1", mcp_ids := ["m1"], description := "d" }

/-- A sample bundle row. -/
def bundleB1 : BundleRow :=
  { id := "b1", project_id := "p1", description := "bundle one", mcps := ["m1"], routes := [] }

/-- A sample route row belonging to bundle "b1". -/
def routeR1 : RouteRow :=
  { id := "r1", bundle_id := "b1", task_description := "task one",
    tool_sequence := ["toolA"], notes := "", execution_order := 0, mcp_tools := ["m1"] }

/-- A store holding bundle "b1" with no routes. -/
def dbOneBundleNoRoutes : Db :=
  { mcp := [], bundles := [bundleB1], route := [], nextId := 5 }

/-- A store holding bundle "b1" with one route "r1". -/
def dbOneRoute : Db :=
  { mcp := [], bundles := [bundleB1], route := [routeR1], nextId := 7 }

/-- A store whose only mcp row has id "m9" — matching none of reqSample's ids. -/
def dbMcpOnly : Db :=
  { mcp := [{ id := "m9", name := "other", parameters := "cfg" }],
    bundles := [], route := [], nextId := 0 }

/-- A parsed agent answer reporting `new_route_created = false`. -/
def reFlagFalse : RouteExecution :=
  { matched_route := true, route_used := "", execution_result := "done",
    new_route_created := false }

/-- A parsed agent answer with an empty `route_used` field. -/
def reEmptyRoute : RouteExecution :=
  { matched_route := false, route_used := "", execution_result := "out2",
    new_route_created := true }

/-- A parsed agent answer with `matched_route = true`. -/
def reM1 : RouteExecution :=
  { matched_route := true, route_used := "r1", execution_result := "out",
    new_route_created := false }

/-- The same parsed agent answer except `matched_route = false`. -/
def reM2 : RouteExecution :=
  { matched_route := false, route_used := "r1", execution_result := "out",
    new_route_created := false }

/-! Helper lemmas about the bundler's route-insert loop and the store. -/

/-- The insert loop creates one route row per task. -/
theorem mkRoutes_length (b : String) (m : List String) (ts : List Task) (i n : Nat) :
    (mkRoutes b m ts i n).length = ts.length := by
  induction ts generalizing i n with
  | nil => rfl
  | cons t ts ih => simp [mkRoutes, ih]

/-- The `execution_order` fields of the created rows are consecutive from `i`. -/
theorem mkRoutes_map_order (b : String) (m : List String) (ts : List Task) (i n : Nat) :
    (mkRoutes b m ts i n).map (fun r => r.execution_order) = List.range' i ts.length := by
  induction ts generalizing i n with
  | nil => rfl
  | cons t ts ih => simp [mkRoutes, ih, List.range']

/-- Every created row carries the owning bundle id and the request's mcp ids. -/
theorem mkRoutes_mem (b : String) (m : List String) (ts : List Task) (i n : Nat) :
    ∀ r ∈ mkRoutes b m ts i n, r.bundle_id = b ∧ r.mcp_tools = m := by
  induction ts generalizing i n with
  | nil => intro r hr; cases hr
  | cons t ts ih =>
    intro r hr
    rcases List.mem_cons.mp hr with h | h
    · subst h; exact ⟨rfl, rfl⟩
    · exact ih _ _ r h

/-- The bundle update touches no row whose id differs from the new bundle's. -/
theorem map_bundle_update_id {bid : String} {rs : List String} (l : List BundleRow)
    (h : l.all (fun b => !(b.id == bid)) = true) :
    l.map (fun b => if b.id == bid then { b with routes := rs } else b) = l := by
  induction l with
  | nil => rfl
  | cons x xs ih =>
    simp only [List.all_cons, Bool.and_eq_true] at h
    have hx : (x.id == bid) = false := by
      have h1 := h.1
      rwa [Bool.not_eq_true'] at h1
    have hx' : ¬((x.id == bid) = true) := by rw [hx]; exact Bool.false_ne_true
    rw [List.map_cons, if_neg hx', ih h.2]

/-- Route rows never referencing `bid` are dropped by the `bundle_id` filter. -/
theorem filter_bundle_eq_nil {bid : String} (l : List RouteRow)
    (h : l.all (fun r => !(r.bundle_id == bid)) = true) :
    l.filter (fun r => r.bundle_id == bid) = [] := by
  rw [List.filter_eq_nil_iff]
  intro a ha
  have := List.all_eq_true.mp h a ha
  simp at this ⊢
  exact this

/-- The `bundle_id` filter keeps every row the insert loop created for `b`. -/
theorem filter_mkRoutes_self (b : String) (m : List String) (ts : List Task) (i n : Nat) :
    (mkRoutes b m ts i n).filter (fun r => r.bundle_id == b) = mkRoutes b m ts i n := by
  rw [List.filter_eq_self]
  intro r hrr
  have := (mkRoutes_mem b m ts i n r hrr).1
  simp [this]

/-- After a bundler call the updated new bundle row is in the `bundles` table. -/
theorem create_bundle_new_row_mem (db : Db) (req : BundlerRequest) (tools : List String)
    (parsed : Option TaskPlanning) :
    (⟨freshId db.nextId, req.project_id, req.description, req.mcp_ids,
        (mkRoutes (freshId db.nextId) req.mcp_ids (plannedTasks req tools parsed) 0
          (db.nextId + 1)).map (fun r => r.id)⟩ : BundleRow) ∈
      (create_bundle db req tools parsed).2.bundles := by
  simp only [create_bundle]
  refine List.mem_map.mpr
    ⟨⟨freshId db.nextId, req.project_id, req.description, req.mcp_ids, []⟩,
      List.mem_append_right _ ?_, ?_⟩
  · exact List.mem_singleton.mpr rfl
  · simp

/-! Settled claims. -/

/-- Claim C1: for every executor call whose bundle_id matches no Bundle row,
the store is left unwritten and the inner code raises
HTTPException(404, "Bundle not found") — but because fastapi's HTTPException
is an Exception, the endpoint's blanket handler (src/main.py line 208-209)
catches it and re-raises status 500 with detail "404: Bundle not found".
The caller therefore observes HTTP 500, not the 404 the claim (and line 141)
intends: the code contradicts its own 404 intent. -/
theorem c1_missing_bundle_http500 (db : Db) (req : ExecutorRequest) (agentText : String)
    (parsed : Option RouteExecution)
    (h : db.bundles.filter (fun b => b.id == req.bundle_id) = []) :
    execute_request db req agentText parsed =
      (.error { status := 500, detail := "404: Bundle not found" }, db) := by
  simp [execute_request, execute_request_body, h, strOfExc]
  rfl

/-- Witness for C1: the concrete failing input — an empty store and bundle id
"missing" — yields status 500, detail "404: Bundle not found", and no writes. -/
theorem c1_missing_bundle_http500_witness :
    dbNoBundle.bundles.filter (fun b => b.id == "missing") = [] ∧
    execute_request dbNoBundle { bundle_id := "missing", request := "q" } "t" none =
      (.error { status := 500, detail := "404: Bundle not found" }, dbNoBundle) :=
  ⟨rfl, c1_missing_bundle_http500 dbNoBundle { bundle_id := "missing", request := "q" }
    "t" none rfl⟩

/-- Claim C2, counterexample: on bundle "b1" with zero route rows, an agent
output that parses successfully with `new_route_created = false` makes the
endpoint answer `new_route_created = false` — refuting "always true on a
zero-route bundle, regardless of whether the output parses". -/
theorem c2_counterexample :
    dbOneBundleNoRoutes.route.filter (fun r => r.bundle_id == "b1") = [] ∧
    (execute_request dbOneBundleNoRoutes { bundle_id := "b1", request := "q" } "raw"
        (some reFlagFalse)).1 =
      .ok { result := "done", route_used := "new_route", new_route_created := false } :=
  ⟨rfl, rfl⟩

/-- Claim C2 as amended: for every executor call on an existing bundle with
zero pre-existing route rows, the response's `new_route_created` is true when
the agent output fails to parse, and is the agent-reported flag when it
parses successfully. -/
theorem c2_zero_routes_flag (db : Db) (req : ExecutorRequest) (agentText : String)
    (parsed : Option RouteExecution) (resp : ExecutorResponse)
    (hb : db.bundles.filter (fun b => b.id == req.bundle_id) ≠ [])
    (hr : db.route.filter (fun r => r.bundle_id == req.bundle_id) = [])
    (hok : (execute_request db req agentText parsed).1 = .ok resp) :
    resp.new_route_created =
      (match parsed with
       | none => true
       | some er => er.new_route_created) := by
  obtain ⟨b, bs, hfb⟩ := List.exists_cons_of_ne_nil hb
  have hroutes : routesFor db req.bundle_id = [] := by
    simp [routesFor, hr, sortByExecOrder]
  cases parsed with
  | none =>
    have hval : (execute_request db req agentText none).1 =
        .ok { result := agentText, route_used := "new_route_created",
              new_route_created := true } := by
      simp [execute_request, execute_request_body, hfb, hroutes]
    rw [hval] at hok
    injection hok with h
    subst h
    rfl
  | some er =>
    have hval : (execute_request db req agentText (some er)).1 =
        .ok { result := er.execution_result,
              route_used := if er.route_used == "" then "new_route" else er.route_used,
              new_route_created := er.new_route_created } := by
      simp [execute_request, execute_request_body, hfb, hroutes]
    rw [hval] at hok
    injection hok with h
    subst h
    rfl

/-- Witness for C2: bundle "b1" exists with zero routes, the parse fails, and
the response carries `new_route_created = true`. -/
theorem c2_zero_routes_flag_witness :
    dbOneBundleNoRoutes.bundles.filter (fun b => b.id == "b1") ≠ [] ∧
    dbOneBundleNoRoutes.route.filter (fun r => r.bundle_id == "b1") = [] ∧
    (execute_request dbOneBundleNoRoutes { bundle_id := "b1", request := "q" } "raw" none).1 =
      .ok { result := "raw", route_used := "new_route_created", new_route_created := true } ∧
    ({ result := "raw", route_used := "new_route_created",
       new_route_created := true } : ExecutorResponse).new_route_created = true :=
  ⟨by decide, rfl, rfl,
   c2_zero_routes_flag dbOneBundleNoRoutes ⟨"b1", "q"⟩ "raw" none
     { result := "raw", route_used := "new_route_created", new_route_created := true }
     (by decide) rfl rfl⟩

/-- Claim C3, counterexample: a bundler call whose mcp_ids match no mcp row
does not fail — with the external calls succeeding it returns a successful
bundle response, refuting "fails with a NotFound-class error (HTTP 500)". -/
theorem c3_counterexample :
    dbMcpOnly.mcp.filter (fun m => reqSample.mcp_ids.contains m.id) = [] ∧
    (create_bundle dbMcpOnly reqSample [] none).1 =
      .ok { bundle_id := "id_0", routes_created := 1 } :=
  ⟨rfl, rfl⟩

/-- Claim C3 as amended: for every bundler call whose mcp_ids match no MCP
record, the code raises no NotFound error: it proceeds with an empty
tool-server configuration, and (the external calls being modelled as
succeeding) the endpoint returns a successful bundle response. -/
theorem c3_no_matching_mcp_proceeds (db : Db) (req : BundlerRequest) (tools : List String)
    (parsed : Option TaskPlanning)
    (h : db.mcp.filter (fun m => req.mcp_ids.contains m.id) = []) :
    mcpConfigOf db req.mcp_ids = [] ∧
    (create_bundle db req tools parsed).1 =
      .ok { bundle_id := freshId db.nextId,
            routes_created := (plannedTasks req tools parsed).length } :=
  ⟨by unfold mcpConfigOf; rw [h]; rfl, rfl⟩

/-- Witness for C3: a store whose only mcp row ("m9") matches none of the
requested ids ("m1") yields an empty config and a successful response. -/
theorem c3_no_matching_mcp_proceeds_witness :
    dbMcpOnly.mcp.filter (fun m => reqSample.mcp_ids.contains m.id) = [] ∧
    (mcpConfigOf dbMcpOnly reqSample.mcp_ids = [] ∧
      (create_bundle dbMcpOnly reqSample ["t1"] none).1 =
        .ok { bundle_id := "id_0", routes_created := 1 }) :=
  ⟨rfl, c3_no_matching_mcp_proceeds dbMcpOnly reqSample ["t1"] none rfl⟩

/-- Claim C4: whenever parsing the bundler agent's output raises, exactly one
task is synthesized — description equal to the request's description, tool
sequence the names of the first min(3, number of tools) tools, notes the
fixed text "Auto-generated from description" — and exactly one route row is
inserted from it. -/
theorem c4_bundler_parse_failure_fallback (db : Db) (req : BundlerRequest)
    (tools : List String) :
    plannedTasks req tools none =
      [{ task_description := req.description, tool_sequence := tools.take 3,
         notes := "Auto-generated from description" }] ∧
    (tools.take 3).length = min 3 tools.length ∧
    (create_bundle db req tools none).1 =
      .ok { bundle_id := freshId db.nextId, routes_created := 1 } ∧
    (create_bundle db req tools none).2.route =
      db.route ++ [{ id := freshId (db.nextId + 1), bundle_id := freshId db.nextId,
                     task_description := req.description, tool_sequence := tools.take 3,
                     notes := "Auto-generated from description", execution_order := 0,
                     mcp_tools := req.mcp_ids }] :=
  ⟨rfl, List.length_take 3 tools, rfl, rfl⟩

/-- Claim C5: a bundler call ending with N planned tasks inserts exactly one
bundle row and exactly N route rows, the i-th created route (in plan order)
has `execution_order = i`, the new bundle's `routes` field is updated to the
N created route ids in creation order, and the response reports
`routes_created = N`. -/
theorem c5_bundler_persistence (db : Db) (req : BundlerRequest) (tools : List String)
    (parsed : Option TaskPlanning)
    (hfresh : db.bundles.all (fun b => !(b.id == freshId db.nextId)) = true) :
    (create_bundle db req tools parsed).1 =
      .ok { bundle_id := freshId db.nextId,
            routes_created := (plannedTasks req tools parsed).length } ∧
    (create_bundle db req tools parsed).2.bundles =
      db.bundles ++
        [{ id := freshId db.nextId, project_id := req.project_id,
           description := req.description, mcps := req.mcp_ids,
           routes := (mkRoutes (freshId db.nextId) req.mcp_ids
               (plannedTasks req tools parsed) 0 (db.nextId + 1)).map (fun r => r.id) }] ∧
    (create_bundle db req tools parsed).2.route =
      db.route ++
        mkRoutes (freshId db.nextId) req.mcp_ids (plannedTasks req tools parsed) 0
          (db.nextId + 1) ∧
    (mkRoutes (freshId db.nextId) req.mcp_ids (plannedTasks req tools parsed) 0
        (db.nextId + 1)).length = (plannedTasks req tools parsed).length ∧
    (mkRoutes (freshId db.nextId) req.mcp_ids (plannedTasks req tools parsed) 0
        (db.nextId + 1)).map (fun r => r.execution_order) =
      List.range (plannedTasks req tools parsed).length := by
  refine ⟨rfl, ?_, rfl, mkRoutes_length _ _ _ _ _, ?_⟩
  · simp only [create_bundle, List.map_append]
    rw [map_bundle_update_id db.bundles hfresh]
    simp
  · rw [mkRoutes_map_order, List.range_eq_range']

/-- Witness for C5: on the empty store, a bundler call with a failing parse
ends with one task, one bundle row, one route row with order 0, and the
bundle's `routes` field equal to the created route's id. -/
theorem c5_bundler_persistence_witness :
    dbNoBundle.bundles.all (fun b => !(b.id == freshId dbNoBundle.nextId)) = true ∧
    ((create_bundle dbNoBundle reqSample ["t1", "t2"] none).1 =
        .ok { bundle_id := "id_0", routes_created := 1 } ∧
      (create_bundle dbNoBundle reqSample ["t1", "t2"] none).2.bundles =
        [{ id := "id_0", project_id := "p1", description := "d", mcps := ["m1"],
           routes := ["id_1"] }] ∧
      (create_bundle dbNoBundle reqSample ["t1", "t2"] none).2.route =
        [{ id := "id_1", bundle_id := "id_0", task_description := "d",
           tool_sequence := ["t1", "t2"], notes := "Auto-generated from description",
           execution_order := 0, mcp_tools := ["m1"] }] ∧
      (mkRoutes "id_0" ["m1"] (plannedTasks reqSample ["t1", "t2"] none) 0 1).length = 1 ∧
      (mkRoutes "id_0" ["m1"] (plannedTasks reqSample ["t1", "t2"] none) 0 1).map
          (fun r => r.execution_order) = List.range 1) :=
  ⟨rfl, c5_bundler_persistence dbNoBundle reqSample ["t1", "t2"] none rfl⟩

/-- Claim C6: for every executor call on an existing bundle whose agent
output fails to parse, the endpoint answers successfully (the failure is
never surfaced) with the raw agent text as result, the first existing
route's id as `route_used` (sentinel "new_route_created" when the bundle has
no routes), and `new_route_created` true exactly when there were zero
pre-existing routes. -/
theorem c6_executor_parse_failure_fallback (db : Db) (req : ExecutorRequest)
    (agentText : String)
    (hb : db.bundles.filter (fun b => b.id == req.bundle_id) ≠ []) :
    execute_request db req agentText none =
      (.ok { result := agentText,
             route_used :=
               match routesFor db req.bundle_id with
               | [] => "new_route_created"
               | r :: _ => r.id,
             new_route_created := (routesFor db req.bundle_id).length == 0 }, db) := by
  obtain ⟨b, bs, hfb⟩ := List.exists_cons_of_ne_nil hb
  simp [execute_request, execute_request_body, hfb]

/-- Witness for C6: on bundle "b1" with one route "r1", a failed parse
answers with the raw text, route "r1", and `new_route_created = false`. -/
theorem c6_executor_parse_failure_fallback_witness :
    dbOneRoute.bundles.filter (fun b => b.id == "b1") ≠ [] ∧
    execute_request dbOneRoute { bundle_id := "b1", request := "q" } "raw" none =
      (.ok { result := "raw", route_used := "r1", new_route_created := false },
       dbOneRoute) :=
  ⟨by decide, c6_executor_parse_failure_fallback dbOneRoute ⟨"b1", "q"⟩ "raw" (by decide)⟩

/-- Claim C7: for every executor call on an existing bundle whose agent
output parses successfully, the result is the parsed execution_result text,
`route_used` is the agent-reported id when non-empty, else the first
existing route's id, else the sentinel "new_route", and `new_route_created`
is exactly the agent-reported flag. -/
theorem c7_executor_parse_success (db : Db) (req : ExecutorRequest) (agentText : String)
    (er : RouteExecution)
    (hb : db.bundles.filter (fun b => b.id == req.bundle_id) ≠ []) :
    execute_request db req agentText (some er) =
      (.ok { result := er.execution_result,
             route_used :=
               if er.route_used == "" then
                 match routesFor db req.bundle_id with
                 | [] => "new_route"
                 | r :: _ => r.id
               else er.route_used,
             new_route_created := er.new_route_created }, db) := by
  obtain ⟨b, bs, hfb⟩ := List.exists_cons_of_ne_nil hb
  simp [execute_request, execute_request_body, hfb]

/-- Witness for C7: on bundle "b1" with no routes and a parsed answer whose
`route_used` is empty, the endpoint answers "new_route" with the parsed
result text and flag. -/
theorem c7_executor_parse_success_witness :
    dbOneBundleNoRoutes.bundles.filter (fun b => b.id == "b1") ≠ [] ∧
    execute_request dbOneBundleNoRoutes { bundle_id := "b1", request := "q" } "raw"
        (some reEmptyRoute) =
      (.ok { result := "out2", route_used := "new_route", new_route_created := true },
       dbOneBundleNoRoutes) :=
  ⟨by decide,
   c7_executor_parse_success dbOneBundleNoRoutes ⟨"b1", "q"⟩ "raw" reEmptyRoute (by decide)⟩

/-- Claim C8: every route row created by a bundler call references the
bundle row created in the same call via `bundle_id`, carries
`mcp_tools` equal to the request's mcp ids, and the created rows'
`execution_order` values are exactly 0..N-1 in planning order (hence unique
within the bundle); the created bundle row lists exactly the created route
ids. -/
theorem c8_route_invariants (db : Db) (req : BundlerRequest) (tools : List String)
    (parsed : Option TaskPlanning)
    (hr : db.route.all (fun r => !(r.bundle_id == freshId db.nextId)) = true) :
    (∃ b ∈ (create_bundle db req tools parsed).2.bundles,
        b.id = freshId db.nextId ∧
        b.routes = ((create_bundle db req tools parsed).2.route.filter
            (fun r => r.bundle_id == freshId db.nextId)).map (fun r => r.id)) ∧
    (∀ r ∈ (create_bundle db req tools parsed).2.route.filter
        (fun r => r.bundle_id == freshId db.nextId),
        r.bundle_id = freshId db.nextId ∧ r.mcp_tools = req.mcp_ids) ∧
    ((create_bundle db req tools parsed).2.route.filter
        (fun r => r.bundle_id == freshId db.nextId)).map (fun r => r.execution_order) =
      List.range ((create_bundle db req tools parsed).2.route.filter
        (fun r => r.bundle_id == freshId db.nextId)).length := by
  have hcreated : (create_bundle db req tools parsed).2.route.filter
      (fun r => r.bundle_id == freshId db.nextId) =
      mkRoutes (freshId db.nextId) req.mcp_ids (plannedTasks req tools parsed) 0
        (db.nextId + 1) := by
    simp only [create_bundle]
    rw [List.filter_append, filter_bundle_eq_nil db.route hr, filter_mkRoutes_self,
      List.nil_append]
  refine ⟨⟨_, create_bundle_new_row_mem db req tools parsed, rfl, by rw [hcreated]⟩, ?_, ?_⟩
  · rw [hcreated]
    exact mkRoutes_mem _ _ _ _ _
  · rw [hcreated, mkRoutes_map_order, mkRoutes_length, List.range_eq_range']

/-- Witness for C8: a one-task bundler call on the empty store creates a
route referencing the new bundle, with mcp_tools ["m1"] and orders [0]. -/
theorem c8_route_invariants_witness :
    dbNoBundle.route.all (fun r => !(r.bundle_id == freshId dbNoBundle.nextId)) = true ∧
    ((∃ b ∈ (create_bundle dbNoBundle reqSample ["t1"] none).2.bundles,
        b.id = freshId dbNoBundle.nextId ∧
        b.routes = ((create_bundle dbNoBundle reqSample ["t1"] none).2.route.filter
            (fun r => r.bundle_id == freshId dbNoBundle.nextId)).map (fun r => r.id)) ∧
      (∀ r ∈ (create_bundle dbNoBundle reqSample ["t1"] none).2.route.filter
          (fun r => r.bundle_id == freshId dbNoBundle.nextId),
          r.bundle_id = freshId dbNoBundle.nextId ∧ r.mcp_tools = reqSample.mcp_ids) ∧
      ((create_bundle dbNoBundle reqSample ["t1"] none).2.route.filter
          (fun r => r.bundle_id == freshId dbNoBundle.nextId)).map
            (fun r => r.execution_order) =
        List.range ((create_bundle dbNoBundle reqSample ["t1"] none).2.route.filter
          (fun r => r.bundle_id == freshId dbNoBundle.nextId)).length) :=
  ⟨rfl, c8_route_invariants dbNoBundle reqSample ["t1"] none rfl⟩

/-- Claim C9: the executor's response never depends on the agent-reported
`matched_route` field — two successfully parsed RouteExecution values that
agree on the other three fields (so, in particular, ones differing only in
`matched_route`) produce identical responses. -/
theorem c9_matched_route_not_used (db : Db) (req : ExecutorRequest) (agentText : String)
    (re1 re2 : RouteExecution)
    (h1 : re1.route_used = re2.route_used)
    (h2 : re1.execution_result = re2.execution_result)
    (h3 : re1.new_route_created = re2.new_route_created) :
    execute_request db req agentText (some re1) =
      execute_request db req agentText (some re2) := by
  cases re1
  cases re2
  dsimp only at h1 h2 h3
  subst h1
  subst h2
  subst h3
  rfl

/-- Witness for C9: two parsed answers differing only in `matched_route`
yield the same response on bundle "b1". -/
theorem c9_matched_route_not_used_witness :
    reM1.route_used = reM2.route_used ∧
    reM1.execution_result = reM2.execution_result ∧
    reM1.new_route_created = reM2.new_route_created ∧
    execute_request dbOneRoute { bundle_id := "b1", request := "q" } "raw" (some reM1) =
      execute_request dbOneRoute { bundle_id := "b1", request := "q" } "raw" (some reM2) :=
  ⟨rfl, rfl, rfl,
   c9_matched_route_not_used dbOneRoute ⟨"b1", "q"⟩ "raw" reM1 reM2 rfl rfl rfl⟩

/-- Claim C10: GET /health returns exactly the payload with the single pair
("status", "healthy"); the handler reads no store or tool-server state (its
definition takes no such input at all). -/
theorem c10_health_constant : health_check = [("status", "healthy")] := rfl

end McpExecutor
